import Mathlib

/-!
Shallow embedding of `src/nerfnet/net/nerfnet_main.cc` (nrfnet), together
with a spec-modelled fragmentation engine (the engine sources are not in
the repository snapshot; only `nerfnet_main.cc` is).

The bootstrap in `main` is modelled as a pure function from the parsed
command-line options and an environment of system-call outcomes to a trace
of observable events and either a fatal error or the configuration of the
radio engine whose `Run` loop is entered.
-/

namespace Nerfnet

/-- Raw command-line invocation: `none` means the option was not given on
the command line. `primary`/`secondary` are TCLAP switch args
(`nerfnet_main.cc` lines 104-107). -/
structure RawArgs where
  interface_name : Option String
  ce_pin : Option Nat
  primary : Bool
  secondary : Bool
  tunnel_ip : Option String
  tunnel_mask : Option String
  primary_addr : Option Nat
  secondary_addr : Option Nat
  channel : Option Nat
  poll_interval_us : Option Nat
  enable_tunnel_logs : Bool
  deriving Repr, DecidableEq

/-- Option values after `cmd.parse` applied TCLAP defaults
(`nerfnet_main.cc` lines 99-127). `tunnel_ip` stays optional because the
code later consults `tunnel_ip_arg.isSet()` (line 131); its TCLAP default
value is the empty string. -/
structure Args where
  interface_name : String
  ce_pin : Nat
  primary : Bool
  secondary : Bool
  tunnel_ip : Option String
  tunnel_mask : String
  primary_addr : Nat
  secondary_addr : Nat
  channel : Nat
  poll_interval_us : Nat
  enable_tunnel_logs : Bool
  deriving Repr, DecidableEq

/-- Fatal termination causes of the bootstrap.  Every one of them is a
ConfigurationError in the taxonomy of spec section 7 (invalid addresses,
out-of-range channel, missing role selection, device setup failure): each
is raised by a `CHECK` (or by TCLAP's parse) before the engine loop. -/
inductive MainError where
  /-- `cmd.xorAdd(primary_arg, secondary_arg)` (line 114): TCLAP rejects a
  command line that sets neither or both of the two switch args. -/
  | roleXorViolation
  /-- `open("/dev/net/tun")` failed (`OpenTunnel`, line 84). -/
  | openTunnelFailed
  /-- `ioctl(fd, TUNSETIFF, ...)` failed (`OpenTunnel`, line 91). -/
  | tunSetIffFailed
  /-- `socket(...)` failed in `SetInterfaceFlags` (line 43). -/
  | flagsSocketFailed
  /-- `ioctl(fd, SIOCSIFFLAGS, ...)` failed (`SetInterfaceFlags`, line 49). -/
  | setIfFlagsFailed
  /-- `socket(...)` failed in `SetIPAddress` (line 57). -/
  | ipSocketFailed
  /-- `inet_pton` rejected the IP string (`SetIPAddress`, line 63). -/
  | ipParseFailed
  /-- `ioctl(fd, SIOCSIFADDR, ...)` failed (`SetIPAddress`, line 67). -/
  | setIfAddrFailed
  /-- `inet_pton` rejected the mask string (`SetIPAddress`, line 71). -/
  | maskParseFailed
  /-- `ioctl(fd, SIOCSIFNETMASK, ...)` failed (`SetIPAddress`, line 75). -/
  | setIfNetmaskFailed
  /-- Channel outside the valid range 1-128 (spec-modelled; see
  `validateLinkConfig`). -/
  | channelOutOfRange
  /-- Equal or zero radio addresses (spec-modelled; see
  `validateLinkConfig`). -/
  | invalidAddress
  /-- `CHECK(false, "Primary or secondary mode must be enabled")`
  (line 169). -/
  | roleCheckFailed
  deriving Repr, DecidableEq

/-- Model of TCLAP's `cmd.parse(argc, argv)` for this command line.
`cmd.xorAdd(primary_arg, secondary_arg)` (line 114) makes the two switches
mutually exclusive and one of them required, so parsing fails unless
exactly one of them is set; otherwise every unset option takes the default
declared at lines 99-127. -/
def tclapParse (r : RawArgs) : Except MainError Args :=
  if r.primary = r.secondary then
    .error .roleXorViolation
  else
    .ok
      { interface_name := r.interface_name.getD "nerf0"
        ce_pin := r.ce_pin.getD 22
        primary := r.primary
        secondary := r.secondary
        tunnel_ip := r.tunnel_ip
        tunnel_mask := r.tunnel_mask.getD "255.255.255.0"
        primary_addr := r.primary_addr.getD 0x90019001
        secondary_addr := r.secondary_addr.getD 0x90009000
        channel := r.channel.getD 1
        poll_interval_us := r.poll_interval_us.getD 100
        enable_tunnel_logs := r.enable_tunnel_logs }

/-- Outcomes of the OS calls the bootstrap performs, one flag per `CHECK`
site.  `inet_pton_ok` models which strings `inet_pton(AF_INET, s, ...)`
accepts. -/
structure SysEnv where
  tun_open_fd : Option Nat
  tunsetiff_ok : Bool
  flags_socket_ok : Bool
  siocsifflags_ok : Bool
  addr_socket_ok : Bool
  inet_pton_ok : String → Bool
  siocsifaddr_ok : Bool
  siocsifnetmask_ok : Bool

/-- Observable events of a bootstrap run, in program order. -/
inductive EngineRole where
  | primary
  | secondary
  deriving Repr, DecidableEq

/-- The state a radio engine is constructed with: the constructor
arguments of `PrimaryRadioInterface` (line 155) resp.
`SecondaryRadioInterface` (line 162), plus the tunnel-logging flag set by
`SetTunnelLogsEnabled` (lines 159/166).  `poll_interval_us` is `some` only
for the primary because only its constructor takes that argument. -/
structure EngineConfig where
  role : EngineRole
  ce_pin : Nat
  tunnel_fd : Nat
  primary_addr : Nat
  secondary_addr : Nat
  channel : Nat
  poll_interval_us : Option Nat
  tunnel_logs_enabled : Bool
  deriving Repr, DecidableEq

/-- Observable events of the bootstrap, in the order `main` performs them. -/
inductive Event where
  | openedTunnel (device : String) (fd : Nat)
  | interfaceUp (device : String)
  | ipAssigned (device ip mask : String)
  | engineConstructed (role : EngineRole) (cfg : EngineConfig)
  | runEntered (role : EngineRole)
  deriving Repr, DecidableEq

/-- Linux `IFF_UP` flag value, passed at line 142. -/
def IFF_UP : Nat := 1

/-- `OpenTunnel` (lines 82-94): open `/dev/net/tun`, then
`ioctl(TUNSETIFF)`; each `CHECK` failure quits the process. -/
def OpenTunnel (env : SysEnv) (device_name : String) : Except MainError Nat :=
  match env.tun_open_fd with
  | none => .error .openTunnelFailed
  | some fd => if env.tunsetiff_ok then .ok fd else .error .tunSetIffFailed

/-- `SetInterfaceFlags` (lines 41-52): open a socket, `ioctl(SIOCSIFFLAGS)`;
each `CHECK` failure quits the process.  The flags value is not otherwise
inspected. -/
def SetInterfaceFlags (env : SysEnv) (device_name : String) (flags : Nat) :
    Except MainError Unit :=
  if !env.flags_socket_ok then .error .flagsSocketFailed
  else if !env.siocsifflags_ok then .error .setIfFlagsFailed
  else .ok ()

/-- `SetIPAddress` (lines 54-78): open a socket, `inet_pton` on the IP,
`ioctl(SIOCSIFADDR)`, `inet_pton` on the mask, `ioctl(SIOCSIFNETMASK)`,
in that order; each `CHECK` failure quits the process. -/
def SetIPAddress (env : SysEnv) (device_name ip ip_mask : String) :
    Except MainError Unit :=
  if !env.addr_socket_ok then .error .ipSocketFailed
  else if !env.inet_pton_ok ip then .error .ipParseFailed
  else if !env.siocsifaddr_ok then .error .setIfAddrFailed
  else if !env.inet_pton_ok ip_mask then .error .maskParseFailed
  else if !env.siocsifnetmask_ok then .error .setIfNetmaskFailed
  else .ok ()

/-- Lines 130-137: `tunnel_ip` starts as the TCLAP value (default empty
string); if the option was not set it is replaced by a role-based default. -/
def resolveTunnelIp (a : Args) : String :=
  match a.tunnel_ip with
  | some ip => ip
  | none =>
    if a.primary then "192.168.10.1"
    else if a.secondary then "192.168.10.2"
    else ""

/-- Constructor call `PrimaryRadioInterface(ce_pin, tunnel_fd, primary_addr,
secondary_addr, channel, poll_interval_us)` (lines 155-158). -/
def mkPrimaryRadioInterface (ce_pin tunnel_fd primary_addr secondary_addr
    channel poll_interval_us : Nat) : EngineConfig :=
  { role := .primary, ce_pin := ce_pin, tunnel_fd := tunnel_fd
    primary_addr := primary_addr, secondary_addr := secondary_addr
    channel := channel, poll_interval_us := some poll_interval_us
    tunnel_logs_enabled := false }

/-- Constructor call `SecondaryRadioInterface(ce_pin, tunnel_fd,
primary_addr, secondary_addr, channel)` (lines 162-165): it takes no
poll-interval argument. -/
def mkSecondaryRadioInterface (ce_pin tunnel_fd primary_addr secondary_addr
    channel : Nat) : EngineConfig :=
  { role := .secondary, ce_pin := ce_pin, tunnel_fd := tunnel_fd
    primary_addr := primary_addr, secondary_addr := secondary_addr
    channel := channel, poll_interval_us := none
    tunnel_logs_enabled := false }

/-- `radio_interface.SetTunnelLogsEnabled(...)` (lines 159/166). -/
def SetTunnelLogsEnabled (cfg : EngineConfig) (b : Bool) : EngineConfig :=
  { cfg with tunnel_logs_enabled := b }

/-- Modelled from the spec: the engine sources
(`primary_radio_interface`/`secondary_radio_interface`) are not in the
repository snapshot.  Spec sections 3 and 7 require the LinkConfig to have
a channel in the bounded range 1-128 and distinct, non-zero radio
addresses, violations being fatal ConfigurationErrors raised before any
radio transaction; this validation runs when the engine is configured,
before the engine exists. -/
def validateLinkConfig (primary_addr secondary_addr channel : Nat) :
    Except MainError Unit :=
  if channel < 1 ∨ 128 < channel then .error .channelOutOfRange
  else if primary_addr = secondary_addr ∨ primary_addr = 0 ∨ secondary_addr = 0 then
    .error .invalidAddress
  else .ok ()

/-- Modelled from the spec: the engine loop (`Run`, lines 160/167) is not
in the repository snapshot.  Spec section 5: configuration is immutable for
the process lifetime with no runtime reconfiguration path, so running the
engine leaves its configuration unchanged. -/
def Run (cfg : EngineConfig) : EngineConfig := cfg

/-- Lines 154-170: role dispatch after tunnel setup.  The constructed
engine's configuration is validated (spec-modelled, see
`validateLinkConfig`), the engine is constructed, tunnel logging is set and
`Run` is entered; with no role selected, `CHECK(false, ...)` quits. -/
def roleDispatch (a : Args) (fd : Nat) :
    List Event × Except MainError EngineConfig :=
  if a.primary then
    match validateLinkConfig a.primary_addr a.secondary_addr a.channel with
    | .error e => ([], .error e)
    | .ok _ =>
      ([.engineConstructed .primary (SetTunnelLogsEnabled
          (mkPrimaryRadioInterface a.ce_pin fd a.primary_addr a.secondary_addr
            a.channel a.poll_interval_us) a.enable_tunnel_logs),
        .runEntered .primary],
       .ok (Run (SetTunnelLogsEnabled
          (mkPrimaryRadioInterface a.ce_pin fd a.primary_addr a.secondary_addr
            a.channel a.poll_interval_us) a.enable_tunnel_logs)))
  else if a.secondary then
    match validateLinkConfig a.primary_addr a.secondary_addr a.channel with
    | .error e => ([], .error e)
    | .ok _ =>
      ([.engineConstructed .secondary (SetTunnelLogsEnabled
          (mkSecondaryRadioInterface a.ce_pin fd a.primary_addr
            a.secondary_addr a.channel) a.enable_tunnel_logs),
        .runEntered .secondary],
       .ok (Run (SetTunnelLogsEnabled
          (mkSecondaryRadioInterface a.ce_pin fd a.primary_addr
            a.secondary_addr a.channel) a.enable_tunnel_logs)))
  else ([], .error .roleCheckFailed)

/-- The three tunnel-setup events of a successful setup (lines 140-148). -/
def setupTrace (a : Args) (fd : Nat) : List Event :=
  [.openedTunnel a.interface_name fd,
   .interfaceUp a.interface_name,
   .ipAssigned a.interface_name (resolveTunnelIp a) a.tunnel_mask]

/-- `main` after `cmd.parse` (lines 130-172): resolve the tunnel IP, open
the tunnel, bring the interface up, assign IP and mask, then dispatch on
the role.  Returns the trace of events together with the engine
configuration whose `Run` loop was entered, or the fatal error. -/
def mainAfterParse (a : Args) (env : SysEnv) :
    List Event × Except MainError EngineConfig :=
  match OpenTunnel env a.interface_name with
  | .error e => ([], .error e)
  | .ok fd =>
    match SetInterfaceFlags env a.interface_name IFF_UP with
    | .error e => ([.openedTunnel a.interface_name fd], .error e)
    | .ok _ =>
      match SetIPAddress env a.interface_name (resolveTunnelIp a) a.tunnel_mask with
      | .error e =>
        ([.openedTunnel a.interface_name fd, .interfaceUp a.interface_name],
         .error e)
      | .ok _ =>
        (setupTrace a fd ++ (roleDispatch a fd).1, (roleDispatch a fd).2)

/-- The whole of `main` (lines 96-173): TCLAP parse, then the rest. -/
def mainModel (r : RawArgs) (env : SysEnv) :
    List Event × Except MainError EngineConfig :=
  match tclapParse r with
  | .error e => ([], .error e)
  | .ok a => mainAfterParse a env

/-- The run ended in a fatal `CHECK`/parse error. -/
def resultFatal : Except MainError EngineConfig → Bool
  | .error _ => true
  | .ok _ => false

/-- The trace entered some engine's `Run` loop. -/
def hasRun (tr : List Event) : Bool :=
  tr.any fun e => match e with
    | .runEntered _ => true
    | _ => false

/-- The trace constructed or ran a radio engine. -/
def hasEngine (tr : List Event) : Bool :=
  tr.any fun e => match e with
    | .engineConstructed _ _ => true
    | .runEntered _ => true
    | _ => false

/-- The device name an event mentions, for the tunnel-setup events. -/
def tunnelEventDevice : Event → Option String
  | .openedTunnel d _ => some d
  | .interfaceUp d => some d
  | .ipAssigned d _ _ => some d
  | _ => none

/-- All OS calls of the tunnel setup succeed for this device and address
strings. -/
def tunnelSetupOk (env : SysEnv) (ip mask : String) : Bool :=
  env.tun_open_fd.isSome && env.tunsetiff_ok && env.flags_socket_ok &&
  env.siocsifflags_ok && env.addr_socket_ok && env.inet_pton_ok ip &&
  env.siocsifaddr_ok && env.inet_pton_ok mask && env.siocsifnetmask_ok

/-- A fully permissive environment, for concrete witnesses. -/
def okEnv : SysEnv :=
  { tun_open_fd := some 3
    tunsetiff_ok := true
    flags_socket_ok := true
    siocsifflags_ok := true
    addr_socket_ok := true
    inet_pton_ok := fun _ => true
    siocsifaddr_ok := true
    siocsifnetmask_ok := true }

/-- An environment in which opening `/dev/net/tun` fails. -/
def tunFailEnv : SysEnv :=
  { okEnv with tun_open_fd := none }

/-- A default secondary-role invocation, for concrete witnesses. -/
def rawSecondary : RawArgs :=
  { interface_name := none
    ce_pin := none
    primary := false
    secondary := true
    tunnel_ip := none
    tunnel_mask := none
    primary_addr := none
    secondary_addr := none
    channel := none
    poll_interval_us := none
    enable_tunnel_logs := false }

/-!
Fragmentation engine, modelled from spec sections 3, 4.1, 4.2 and 8: the
`Frame Codec` and `Fragmentation Engine` sources are not in the repository
snapshot.  The spec leaves the exact byte budget open and gives the example
usable payload `C - H = 28` and maximum packet length 1500 (section 8.2),
documented here as configuration constants.
-/

/-- Modelled from the spec: usable payload bytes per fragment, the frame
capacity minus the header overhead (spec example value 28). -/
def framePayloadCapacity : Nat := 28

/-- Modelled from the spec: the configured maximum packet size that
protects reassembly buffers from unbounded growth (spec example 1500). -/
def maxPacketSize : Nat := 1500

/-- Frame flags (spec section 3): POLL, DATA, ACK, EMPTY. -/
inductive FrameFlag where
  | POLL
  | DATA
  | ACK
  | EMPTY
  deriving Repr, DecidableEq

/-- Modelled from the spec: one radio frame (spec section 3).  Bytes are
modelled as `Nat`; `payload_length` of the spec is `payload.length`. -/
structure Frame where
  packet_id : Nat
  fragment_index : Nat
  fragment_count : Nat
  flags : FrameFlag
  payload : List Nat
  deriving Repr, DecidableEq

/-- `payload_length` field of the spec's frame. -/
def Frame.payload_length (f : Frame) : Nat := f.payload.length

/-- Modelled from the spec: `fragment_count = ceil(len/chunk)`, with a
zero-length packet still producing exactly one fragment (spec 4.2). -/
def fragmentCount (len : Nat) : Nat :=
  if len = 0 then 1 else (len + framePayloadCapacity - 1) / framePayloadCapacity

/-- Modelled from the spec: fragment `i` carries bytes
`[i*chunk, min((i+1)*chunk, len))` of the packet (spec 4.2). -/
def fragmentPayload (P : List Nat) (i : Nat) : List Nat :=
  (P.drop (i * framePayloadCapacity)).take framePayloadCapacity

/-- The ordered fragment frames of a packet (all DATA frames). -/
def encodedFrames (pid : Nat) (P : List Nat) : List Frame :=
  (List.range (fragmentCount P.length)).map fun i =>
    { packet_id := pid
      fragment_index := i
      fragment_count := fragmentCount P.length
      flags := .DATA
      payload := fragmentPayload P i }

/-- Modelled from the spec: `encode_packet(packet_bytes)` returns the
ordered fragment sequence, or fails with PacketTooLarge when the length
exceeds the configured maximum (spec 4.2). -/
def encode_packet (pid : Nat) (P : List Nat) : Except Unit (List Frame) :=
  if maxPacketSize < P.length then .error ()
  else .ok (encodedFrames pid P)

/-- Modelled from the spec: per-packet reassembly state (spec section 3).
`slots` holds, per fragment index, the received payload; the spec's
`received` set is the set of indices whose slot is filled, and the spec's
`bytes` buffer is the concatenation of the filled slots.  The timeout
field plays no part in the ingestion path modelled here. -/
structure ReassemblyBuffer where
  packet_id : Nat
  fragment_count : Nat
  slots : List (Option (List Nat))
  deriving Repr, DecidableEq

/-- Complete when every fragment index in `[0, fragment_count)` has been
received. -/
def ReassemblyBuffer.complete (b : ReassemblyBuffer) : Bool :=
  b.slots.all Option.isSome

/-- The reconstructed packet bytes, fragments in index order. -/
def ReassemblyBuffer.assembled (b : ReassemblyBuffer) : List Nat :=
  (b.slots.map fun s => s.getD []).flatten

/-- A fresh buffer for a first-seen `packet_id`. -/
def newBuffer (pid cnt : Nat) : ReassemblyBuffer :=
  { packet_id := pid, fragment_count := cnt
    slots := List.replicate cnt none }

/-- Record one fragment's payload in the buffer. -/
def ReassemblyBuffer.record (b : ReassemblyBuffer) (i : Nat)
    (payload : List Nat) : ReassemblyBuffer :=
  { b with slots := b.slots.set i (some payload) }

/-- Modelled from the spec: `ingest_fragment(frame)` (spec 4.2) routes the
frame's `packet_id` to an existing or newly created ReassemblyBuffer,
discards the frame when `fragment_index` is out of range (CorruptFrame,
buffer left intact), ignores duplicates, and on completion destroys the
buffer and returns the assembled packet. -/
def ingest_fragment (st : List ReassemblyBuffer) (f : Frame) :
    List ReassemblyBuffer × Option (List Nat) :=
  match st.find? fun b => b.packet_id == f.packet_id with
  | none =>
    if f.fragment_index < f.fragment_count then
      if ((newBuffer f.packet_id f.fragment_count).record f.fragment_index
          f.payload).complete then
        (st, some ((newBuffer f.packet_id f.fragment_count).record
          f.fragment_index f.payload).assembled)
      else
        (st ++ [(newBuffer f.packet_id f.fragment_count).record
          f.fragment_index f.payload], none)
    else (st, none)
  | some b =>
    if f.fragment_index < b.fragment_count then
      if (b.slots.getD f.fragment_index none).isSome then (st, none)
      else
        if (b.record f.fragment_index f.payload).complete then
          (st.filter fun c => c.packet_id != f.packet_id,
           some (b.record f.fragment_index f.payload).assembled)
        else
          (st.map fun c => if c.packet_id == f.packet_id then
            b.record f.fragment_index f.payload else c, none)
    else (st, none)

/-- Ingest a sequence of frames in order, collecting every completed
packet the engine yields. -/
def ingest_all (st : List ReassemblyBuffer) :
    List Frame → List ReassemblyBuffer × List (List Nat)
  | [] => (st, [])
  | f :: fs =>
    ((ingest_all (ingest_fragment st f).1 fs).1,
     (ingest_fragment st f).2.toList ++ (ingest_all (ingest_fragment st f).1 fs).2)

/-- The fragment frame of index `i` for packet `P` with identifier `pid`. -/
def frameAt (pid : Nat) (P : List Nat) (i : Nat) : Frame :=
  { packet_id := pid
    fragment_index := i
    fragment_count := fragmentCount P.length
    flags := .DATA
    payload := fragmentPayload P i }

/-- The slots of a reassembly buffer that has received exactly the
fragments of index below `k`, in a transfer of `cnt` fragments of `P`. -/
def partialSlots (P : List Nat) (cnt k : Nat) : List (Option (List Nat)) :=
  (List.range cnt).map fun i =>
    if i < k then some (fragmentPayload P i) else none

/-- The reassembly buffer holding the first `k` fragments of `P`. -/
def partialBuf (pid : Nat) (P : List Nat) (cnt k : Nat) : ReassemblyBuffer :=
  { packet_id := pid, fragment_count := cnt, slots := partialSlots P cnt k }

/-- The parse result of `rawSecondary`: every option at its TCLAP default. -/
def argsSecondary : Args :=
  { interface_name := "nerf0"
    ce_pin := 22
    primary := false
    secondary := true
    tunnel_ip := none
    tunnel_mask := "255.255.255.0"
    primary_addr := 0x90019001
    secondary_addr := 0x90009000
    channel := 1
    poll_interval_us := 100
    enable_tunnel_logs := false }

/-- A default primary invocation, for concrete witnesses. -/
def rawPrimary : RawArgs :=
  { rawSecondary with primary := true, secondary := false }

/-- The parse result of `rawPrimary`. -/
def argsPrimary : Args :=
  { argsSecondary with primary := true, secondary := false }

/-- The engine configuration a default primary run enters `Run` with. -/
def cfgPrimary : EngineConfig :=
  SetTunnelLogsEnabled
    (mkPrimaryRadioInterface 22 3 0x90019001 0x90009000 1 100) false

/-- A secondary invocation whose two radio addresses are both 5. -/
def rawAddrBad : RawArgs :=
  { rawSecondary with primary_addr := some 5, secondary_addr := some 5 }

/-- The parse result of `rawAddrBad`. -/
def argsAddrBad : Args :=
  { argsSecondary with primary_addr := 5, secondary_addr := 5 }

/-!
Helper lemmas about the bootstrap model.
-/

lemma tclapParse_ok (r : RawArgs) (a : Args) (hp : tclapParse r = .ok a) :
    a = { interface_name := r.interface_name.getD "nerf0"
          ce_pin := r.ce_pin.getD 22
          primary := r.primary
          secondary := r.secondary
          tunnel_ip := r.tunnel_ip
          tunnel_mask := r.tunnel_mask.getD "255.255.255.0"
          primary_addr := r.primary_addr.getD 0x90019001
          secondary_addr := r.secondary_addr.getD 0x90009000
          channel := r.channel.getD 1
          poll_interval_us := r.poll_interval_us.getD 100
          enable_tunnel_logs := r.enable_tunnel_logs } ∧
    r.primary ≠ r.secondary := by
  unfold tclapParse at hp
  split at hp
  · cases hp
  · cases hp
    exact ⟨rfl, by assumption⟩

lemma tclapParse_ok_role (r : RawArgs) (a : Args) (hp : tclapParse r = .ok a) :
    a.primary = true ∨ a.secondary = true := by
  obtain ⟨ha, hne⟩ := tclapParse_ok r a hp
  have hp1 : a.primary = r.primary := by rw [ha]
  have hs1 : a.secondary = r.secondary := by rw [ha]
  rw [hp1, hs1]
  rcases Bool.eq_false_or_eq_true r.primary with h1 | h1
  · exact Or.inl h1
  · rcases Bool.eq_false_or_eq_true r.secondary with h2 | h2
    · exact Or.inr h2
    · exact absurd (h1.trans h2.symm) hne

lemma OpenTunnel_ok (env : SysEnv) (d : String) (fd : Nat)
    (h : OpenTunnel env d = .ok fd) :
    env.tun_open_fd = some fd ∧ env.tunsetiff_ok = true := by
  unfold OpenTunnel at h
  cases he : env.tun_open_fd with
  | none => rw [he] at h; cases h
  | some fd' =>
    rw [he] at h
    cases ht : env.tunsetiff_ok
    · rw [ht] at h; simp at h
    · rw [ht] at h
      simp only [if_true] at h
      injection h with h'
      exact ⟨congrArg some h', rfl⟩

lemma tunnelSetupOk_split (env : SysEnv) (ip mask : String)
    (h : tunnelSetupOk env ip mask = true) :
    env.tun_open_fd.isSome = true ∧ env.tunsetiff_ok = true ∧
    env.flags_socket_ok = true ∧ env.siocsifflags_ok = true ∧
    env.addr_socket_ok = true ∧ env.inet_pton_ok ip = true ∧
    env.siocsifaddr_ok = true ∧ env.inet_pton_ok mask = true ∧
    env.siocsifnetmask_ok = true := by
  unfold tunnelSetupOk at h
  simp only [Bool.and_eq_true] at h
  tauto

/-- When every OS call succeeds, `main` performs the whole tunnel setup and
hands control to the role dispatch with the opened file descriptor. -/
lemma mainAfterParse_of_tunnelOk (a : Args) (env : SysEnv) (fd : Nat)
    (hfd : env.tun_open_fd = some fd)
    (hok : tunnelSetupOk env (resolveTunnelIp a) a.tunnel_mask = true) :
    mainAfterParse a env =
      (setupTrace a fd ++ (roleDispatch a fd).1, (roleDispatch a fd).2) := by
  obtain ⟨-, h2, h3, h4, h5, h6, h7, h8, h9⟩ :=
    tunnelSetupOk_split env (resolveTunnelIp a) a.tunnel_mask hok
  unfold mainAfterParse OpenTunnel SetInterfaceFlags SetIPAddress
  rw [hfd]
  simp [h2, h3, h4, h5, h6, h7, h8, h9, setupTrace]

/-- When some OS call of the tunnel setup fails, `main` ends in a fatal
error without constructing or running an engine. -/
lemma mainAfterParse_of_tunnelFail (a : Args) (env : SysEnv)
    (hbad : tunnelSetupOk env (resolveTunnelIp a) a.tunnel_mask = false) :
    resultFatal (mainAfterParse a env).2 = true ∧
    hasEngine (mainAfterParse a env).1 = false := by
  unfold tunnelSetupOk at hbad
  unfold mainAfterParse OpenTunnel SetInterfaceFlags SetIPAddress
  cases he : env.tun_open_fd with
  | none => simp [resultFatal, hasEngine]
  | some fd =>
    rw [he] at hbad
    simp only [Option.isSome_some, Bool.true_and] at hbad
    cases h2 : env.tunsetiff_ok <;> rw [h2] at hbad
    · simp [resultFatal, hasEngine]
    · simp only [Bool.true_and] at hbad
      cases h3 : env.flags_socket_ok <;> rw [h3] at hbad
      · simp [resultFatal, hasEngine, hasRun]
      · simp only [Bool.true_and] at hbad
        cases h4 : env.siocsifflags_ok <;> rw [h4] at hbad
        · simp [resultFatal, hasEngine]
        · simp only [Bool.true_and] at hbad
          cases h5 : env.addr_socket_ok <;> rw [h5] at hbad
          · simp [resultFatal, hasEngine]
          · simp only [Bool.true_and] at hbad
            cases h6 : env.inet_pton_ok (resolveTunnelIp a) <;> rw [h6] at hbad
            · simp [resultFatal, hasEngine]
            · simp only [Bool.true_and] at hbad
              cases h7 : env.siocsifaddr_ok <;> rw [h7] at hbad
              · simp [resultFatal, hasEngine]
              · simp only [Bool.true_and] at hbad
                cases h8 : env.inet_pton_ok a.tunnel_mask <;> rw [h8] at hbad
                · simp [resultFatal, hasEngine]
                · simp only [Bool.true_and] at hbad
                  cases h9 : env.siocsifnetmask_ok <;> rw [h9] at hbad
                  · simp [resultFatal, hasEngine]
                  · cases hbad

lemma hasEngine_setupTrace (a : Args) (fd : Nat) :
    hasEngine (setupTrace a fd) = false := by
  simp [hasEngine, setupTrace]

lemma hasRun_of_hasEngine_false (tr : List Event) (h : hasEngine tr = false) :
    hasRun tr = false := by
  unfold hasEngine at h
  unfold hasRun
  simp only [List.any_eq_false] at h ⊢
  intro e he
  have := h e he
  cases e <;> simp_all

lemma validateLinkConfig_channel_bad (pa sa ch : Nat)
    (h : ch < 1 ∨ 128 < ch) :
    validateLinkConfig pa sa ch = .error .channelOutOfRange := by
  unfold validateLinkConfig
  rw [if_pos h]

lemma validateLinkConfig_addr_bad (pa sa ch : Nat)
    (h1 : 1 ≤ ch) (h2 : ch ≤ 128) (h : pa = sa ∨ pa = 0 ∨ sa = 0) :
    validateLinkConfig pa sa ch = .error .invalidAddress := by
  unfold validateLinkConfig
  have hc : ¬(ch < 1 ∨ 128 < ch) := by omega
  rw [if_neg hc, if_pos h]

/-- With a role selected, a (spec-modelled) link-validation error is the
outcome of the role dispatch, whatever the role. -/
lemma roleDispatch_validate_error (a : Args) (fd : Nat) (e : MainError)
    (hrole : a.primary = true ∨ a.secondary = true)
    (hv : validateLinkConfig a.primary_addr a.secondary_addr a.channel =
      .error e) :
    roleDispatch a fd = ([], .error e) := by
  unfold roleDispatch
  rw [hv]
  cases hpb : a.primary
  · cases hsb : a.secondary
    · rcases hrole with hr | hr
      · rw [hpb] at hr; cases hr
      · rw [hsb] at hr; cases hr
    · simp [hpb, hsb]
  · simp [hpb]

lemma not_true_eq_false {b : Bool} (h : ¬b = true) : b = false := by
  cases hb : b
  · rfl
  · exact absurd hb h

lemma tunnelSetupOk_fd (env : SysEnv) (ip mask : String)
    (h : tunnelSetupOk env ip mask = true) :
    ∃ fd, env.tun_open_fd = some fd := by
  obtain ⟨h1, -⟩ := tunnelSetupOk_split env ip mask h
  cases hv : env.tun_open_fd
  · rw [hv] at h1; cases h1
  · exact ⟨_, rfl⟩

/-- The role dispatch either produces no events or exactly an
engine-construction event followed by a run event. -/
lemma roleDispatch_trace (a : Args) (fd : Nat) :
    (roleDispatch a fd).1 = [] ∨
    ∃ role cfg, (roleDispatch a fd).1 =
      [.engineConstructed role cfg, .runEntered role] := by
  unfold roleDispatch
  rcases Bool.eq_false_or_eq_true a.primary with hp | hp
  · rw [if_pos hp]
    cases hv : validateLinkConfig a.primary_addr a.secondary_addr a.channel
    · left; rfl
    · right; exact ⟨.primary, _, rfl⟩
  · rw [if_neg (by rw [hp]; exact Bool.false_ne_true)]
    rcases Bool.eq_false_or_eq_true a.secondary with hs | hs
    · rw [if_pos hs]
      cases hv : validateLinkConfig a.primary_addr a.secondary_addr a.channel
      · left; rfl
      · right; exact ⟨.secondary, _, rfl⟩
    · rw [if_neg (by rw [hs]; exact Bool.false_ne_true)]
      left; rfl

/-- The four possible traces of the bootstrap after a successful parse. -/
lemma mainAfterParse_trace (a : Args) (env : SysEnv) :
    (mainAfterParse a env).1 = [] ∨
    ∃ fd,
      (mainAfterParse a env).1 = [.openedTunnel a.interface_name fd] ∨
      (mainAfterParse a env).1 =
        [.openedTunnel a.interface_name fd, .interfaceUp a.interface_name] ∨
      (mainAfterParse a env).1 = setupTrace a fd ++ (roleDispatch a fd).1 := by
  unfold mainAfterParse
  cases h1 : OpenTunnel env a.interface_name with
  | error e => left; rfl
  | ok fd =>
    cases h2 : SetInterfaceFlags env a.interface_name IFF_UP with
    | error e => right; exact ⟨fd, Or.inl rfl⟩
    | ok u =>
      cases h3 : SetIPAddress env a.interface_name (resolveTunnelIp a)
          a.tunnel_mask with
      | error e => right; exact ⟨fd, Or.inr (Or.inl rfl)⟩
      | ok u => right; exact ⟨fd, Or.inr (Or.inr rfl)⟩

/-- Every tunnel-setup event of a bootstrap run names the interface of the
parsed configuration. -/
lemma mainAfterParse_device (a : Args) (env : SysEnv) :
    ∀ e ∈ (mainAfterParse a env).1, ∀ d,
      tunnelEventDevice e = some d → d = a.interface_name := by
  intro e he d hd
  rcases mainAfterParse_trace a env with ht | ⟨fd, ht | ht | ht⟩ <;>
    rw [ht] at he
  · cases he
  · simp at he
    subst he
    dsimp [tunnelEventDevice] at hd
    injection hd with h'
    exact h'.symm
  · simp at he
    rcases he with rfl | rfl <;>
      (dsimp [tunnelEventDevice] at hd; injection hd with h'; exact h'.symm)
  · simp [setupTrace] at he
    rcases he with rfl | rfl | rfl | he
    · dsimp [tunnelEventDevice] at hd; injection hd with h'; exact h'.symm
    · dsimp [tunnelEventDevice] at hd; injection hd with h'; exact h'.symm
    · dsimp [tunnelEventDevice] at hd; injection hd with h'; exact h'.symm
    · rcases roleDispatch_trace a fd with hr | ⟨role, cfg, hr⟩ <;>
        rw [hr] at he
      · cases he
      · simp at he
        rcases he with rfl | rfl <;> cases hd

/-- Every IP-assignment event of a bootstrap run carries the resolved
tunnel IP and the configured mask. -/
lemma mainAfterParse_ipAssigned (a : Args) (env : SysEnv) (d ip m : String)
    (h : Event.ipAssigned d ip m ∈ (mainAfterParse a env).1) :
    d = a.interface_name ∧ ip = resolveTunnelIp a ∧ m = a.tunnel_mask := by
  rcases mainAfterParse_trace a env with ht | ⟨fd, ht | ht | ht⟩ <;>
    rw [ht] at h
  · cases h
  · simp at h
  · simp at h
  · simp [setupTrace] at h
    rcases h with ⟨h1, h2, h3⟩ | h
    · exact ⟨h1, h2, h3⟩
    · rcases roleDispatch_trace a fd with hr | ⟨role, cfg, hr⟩ <;>
        rw [hr] at h
      · cases h
      · simp at h

/-- A successful bootstrap passed every tunnel-setup step and ended in the
role dispatch with the opened descriptor. -/
lemma mainAfterParse_ok_steps (a : Args) (env : SysEnv) (cfg : EngineConfig)
    (h : (mainAfterParse a env).2 = .ok cfg) :
    ∃ fd, OpenTunnel env a.interface_name = .ok fd ∧
      mainAfterParse a env =
        (setupTrace a fd ++ (roleDispatch a fd).1, (roleDispatch a fd).2) := by
  unfold mainAfterParse at h ⊢
  cases h1 : OpenTunnel env a.interface_name with
  | error e => rw [h1] at h; cases h
  | ok fd =>
    rw [h1] at h
    cases h2 : SetInterfaceFlags env a.interface_name IFF_UP with
    | error e => rw [h2] at h; cases h
    | ok u =>
      rw [h2] at h
      cases h3 : SetIPAddress env a.interface_name (resolveTunnelIp a)
          a.tunnel_mask with
      | error e => rw [h3] at h; cases h
      | ok u => exact ⟨fd, rfl, rfl⟩

/-- A successful role dispatch names a role, records exactly the
construction and run events for the delivered configuration, and that
configuration is the engine constructor's output for the parsed values. -/
lemma roleDispatch_ok (a : Args) (fd : Nat) (cfg : EngineConfig)
    (h : (roleDispatch a fd).2 = .ok cfg) :
    ∃ role,
      (roleDispatch a fd).1 =
        [.engineConstructed role cfg, .runEntered role] ∧
      ((role = .primary ∧ a.primary = true ∧
          cfg = SetTunnelLogsEnabled
            (mkPrimaryRadioInterface a.ce_pin fd a.primary_addr
              a.secondary_addr a.channel a.poll_interval_us)
            a.enable_tunnel_logs) ∨
       (role = .secondary ∧ a.primary = false ∧ a.secondary = true ∧
          cfg = SetTunnelLogsEnabled
            (mkSecondaryRadioInterface a.ce_pin fd a.primary_addr
              a.secondary_addr a.channel) a.enable_tunnel_logs)) := by
  unfold roleDispatch at h ⊢
  rcases Bool.eq_false_or_eq_true a.primary with hp | hp
  · rw [if_pos hp] at h ⊢
    cases hv : validateLinkConfig a.primary_addr a.secondary_addr
        a.channel with
    | error e => rw [hv] at h; cases h
    | ok u =>
      rw [hv] at h
      injection h with hcg
      cases hcg
      exact ⟨.primary, rfl, Or.inl ⟨rfl, hp, rfl⟩⟩
  · rw [if_neg (by rw [hp]; exact Bool.false_ne_true)] at h ⊢
    rcases Bool.eq_false_or_eq_true a.secondary with hs | hs
    · rw [if_pos hs] at h ⊢
      cases hv : validateLinkConfig a.primary_addr a.secondary_addr
          a.channel with
      | error e => rw [hv] at h; cases h
      | ok u =>
        rw [hv] at h
        injection h with hcg
        cases hcg
        exact ⟨.secondary, rfl, Or.inr ⟨rfl, hp, hs, rfl⟩⟩
    · rw [if_neg (by rw [hs]; exact Bool.false_ne_true)] at h
      cases h

/-- With the primary role off, the bootstrap after parse is oblivious to
the poll-interval value: it is only ever passed to the primary engine
constructor. -/
lemma mainAfterParse_poll (a : Args) (env : SysEnv) (v w : Nat)
    (hprim : a.primary = false) :
    mainAfterParse { a with poll_interval_us := v } env =
    mainAfterParse { a with poll_interval_us := w } env := by
  obtain ⟨i, ce, p, s, tip, m, pa, sa, ch, pi, logs⟩ := a
  dsimp at hprim ⊢
  subst hprim
  unfold mainAfterParse roleDispatch setupTrace
  simp [resolveTunnelIp]

/-!
Claim theorems.
-/

/-- C3: an invocation that sets neither or both of the primary and
secondary role flags is rejected at startup (TCLAP `xorAdd` parse failure,
a fatal configuration error) and the process terminates with an empty
trace: no tunnel and no radio engine is ever opened. -/
theorem role_flag_exactly_one_required (r : RawArgs) (env : SysEnv)
    (h : r.primary = r.secondary) :
    mainModel r env = ([], .error .roleXorViolation) := by
  unfold mainModel tclapParse
  rw [if_pos h]

/-- Witness for C3: the invocation that sets no role flag at all is
rejected with the role error and an empty trace. -/
theorem role_flag_exactly_one_required_witness :
    mainModel { rawSecondary with secondary := false } okEnv =
      ([], .error .roleXorViolation) :=
  role_flag_exactly_one_required { rawSecondary with secondary := false }
    okEnv rfl

/-- C1: a channel option value outside the valid range 1-128 (such as 0 or
129) is fatal: the run ends in an error, the trace never constructs or runs
a radio engine, and when the tunnel setup itself succeeds the reported
error is precisely the out-of-range-channel configuration error. -/
theorem channel_out_of_range_rejected (r : RawArgs) (env : SysEnv) (c : Nat)
    (hc : r.channel = some c) (hout : c < 1 ∨ 128 < c) :
    resultFatal (mainModel r env).2 = true ∧
    hasEngine (mainModel r env).1 = false ∧
    ∀ a, tclapParse r = .ok a →
      tunnelSetupOk env (resolveTunnelIp a) a.tunnel_mask = true →
      (mainModel r env).2 = .error .channelOutOfRange := by
  cases hp : tclapParse r with
  | error e =>
    have hm : mainModel r env = ([], .error e) := by
      unfold mainModel
      rw [hp]
    rw [hm]
    refine ⟨rfl, rfl, ?_⟩
    intro a ha
    cases ha
  | ok a =>
    have hch : a.channel = c := by
      obtain ⟨ha, -⟩ := tclapParse_ok r a hp
      rw [ha]
      show r.channel.getD 1 = c
      rw [hc]
      rfl
    have hm : mainModel r env = mainAfterParse a env := by
      unfold mainModel
      rw [hp]
    rw [hm]
    by_cases htun : tunnelSetupOk env (resolveTunnelIp a) a.tunnel_mask = true
    · obtain ⟨fd, hfd⟩ := tunnelSetupOk_fd env _ _ htun
      rw [mainAfterParse_of_tunnelOk a env fd hfd htun]
      have hrd := roleDispatch_validate_error a fd .channelOutOfRange
        (tclapParse_ok_role r a hp)
        (validateLinkConfig_channel_bad _ _ _ (by rw [hch]; exact hout))
      rw [hrd]
      refine ⟨rfl, ?_, ?_⟩
      · simp [hasEngine, setupTrace]
      · intro a' ha' _
        rfl
    · have hfalse := not_true_eq_false htun
      obtain ⟨hf1, hf2⟩ := mainAfterParse_of_tunnelFail a env hfalse
      refine ⟨hf1, hf2, ?_⟩
      intro a' ha' htun'
      injection ha' with haa
      cases haa
      rw [hfalse] at htun'
      cases htun'

/-- Witness for C1: channel 129 on an otherwise default secondary
invocation, against an environment where every OS call succeeds. -/
theorem channel_out_of_range_rejected_witness :
    resultFatal (mainModel { rawSecondary with channel := some 129 } okEnv).2
      = true ∧
    hasEngine (mainModel { rawSecondary with channel := some 129 } okEnv).1
      = false ∧
    ∀ a, tclapParse { rawSecondary with channel := some 129 } = .ok a →
      tunnelSetupOk okEnv (resolveTunnelIp a) a.tunnel_mask = true →
      (mainModel { rawSecondary with channel := some 129 } okEnv).2 =
        .error .channelOutOfRange :=
  channel_out_of_range_rejected { rawSecondary with channel := some 129 }
    okEnv 129 rfl (Or.inr (by decide))

/-- C4: when any OS call of the tunnel setup fails (opening the device,
setting interface flags, assigning IP address or mask), the process ends in
a fatal error and the engine loop `Run` is never entered. -/
theorem tunnel_failure_fatal (r : RawArgs) (env : SysEnv) (a : Args)
    (hp : tclapParse r = .ok a)
    (hbad : tunnelSetupOk env (resolveTunnelIp a) a.tunnel_mask = false) :
    resultFatal (mainModel r env).2 = true ∧
    hasRun (mainModel r env).1 = false := by
  unfold mainModel
  rw [hp]
  obtain ⟨h1, h2⟩ := mainAfterParse_of_tunnelFail a env hbad
  exact ⟨h1, hasRun_of_hasEngine_false _ h2⟩

/-- Witness for C4: a default secondary invocation against an environment
where opening `/dev/net/tun` fails. -/
theorem tunnel_failure_fatal_witness :
    resultFatal (mainModel rawSecondary tunFailEnv).2 = true ∧
    hasRun (mainModel rawSecondary tunFailEnv).1 = false :=
  tunnel_failure_fatal rawSecondary tunFailEnv argsSecondary rfl rfl

/-- C5: equal primary/secondary radio addresses, or a zero address, are
fatal: the run ends in an error and never constructs or runs an engine, and
when the tunnel setup succeeds and the channel is in range the reported
error is precisely the invalid-address configuration error. -/
theorem invalid_addresses_rejected (r : RawArgs) (env : SysEnv) (a : Args)
    (hp : tclapParse r = .ok a)
    (haddr : a.primary_addr = a.secondary_addr ∨ a.primary_addr = 0 ∨
      a.secondary_addr = 0) :
    resultFatal (mainModel r env).2 = true ∧
    hasEngine (mainModel r env).1 = false ∧
    (tunnelSetupOk env (resolveTunnelIp a) a.tunnel_mask = true →
      1 ≤ a.channel → a.channel ≤ 128 →
      (mainModel r env).2 = .error .invalidAddress) := by
  have hm : mainModel r env = mainAfterParse a env := by
    unfold mainModel
    rw [hp]
  rw [hm]
  by_cases htun : tunnelSetupOk env (resolveTunnelIp a) a.tunnel_mask = true
  · obtain ⟨fd, hfd⟩ := tunnelSetupOk_fd env _ _ htun
    rw [mainAfterParse_of_tunnelOk a env fd hfd htun]
    by_cases hch : 1 ≤ a.channel ∧ a.channel ≤ 128
    · have hrd := roleDispatch_validate_error a fd .invalidAddress
        (tclapParse_ok_role r a hp)
        (validateLinkConfig_addr_bad _ _ _ hch.1 hch.2 haddr)
      rw [hrd]
      exact ⟨rfl, by simp [hasEngine, setupTrace], fun _ _ _ => rfl⟩
    · have hrd := roleDispatch_validate_error a fd .channelOutOfRange
        (tclapParse_ok_role r a hp)
        (validateLinkConfig_channel_bad _ _ _ (by omega))
      rw [hrd]
      refine ⟨rfl, by simp [hasEngine, setupTrace], ?_⟩
      intro _ hc1 hc2
      exact absurd ⟨hc1, hc2⟩ hch
  · have hfalse := not_true_eq_false htun
    obtain ⟨hf1, hf2⟩ := mainAfterParse_of_tunnelFail a env hfalse
    refine ⟨hf1, hf2, ?_⟩
    intro htun' _ _
    rw [hfalse] at htun'
    cases htun'

/-- Witness for C5: primary and secondary addresses both set to 5 on an
otherwise default secondary invocation, against a fully permissive
environment. -/
theorem invalid_addresses_rejected_witness :
    resultFatal (mainModel rawAddrBad okEnv).2 = true ∧
    hasEngine (mainModel rawAddrBad okEnv).1 = false ∧
    (tunnelSetupOk okEnv (resolveTunnelIp argsAddrBad)
        argsAddrBad.tunnel_mask = true →
      1 ≤ argsAddrBad.channel → argsAddrBad.channel ≤ 128 →
      (mainModel rawAddrBad okEnv).2 = .error .invalidAddress) :=
  invalid_addresses_rejected rawAddrBad okEnv argsAddrBad rfl (Or.inl rfl)

/-- C6: with the tunnel-IP option unset the device IP is determined solely
by the role (primary 192.168.10.1, secondary 192.168.10.2); with the option
set, the given value is used unchanged; and every IP-assignment event of
the run carries exactly that resolved value. -/
theorem tunnel_ip_role_default (r : RawArgs) (env : SysEnv) (a : Args)
    (hp : tclapParse r = .ok a) :
    (r.tunnel_ip = none →
      (r.primary = true → resolveTunnelIp a = "192.168.10.1") ∧
      (r.secondary = true → resolveTunnelIp a = "192.168.10.2")) ∧
    (∀ s, r.tunnel_ip = some s → resolveTunnelIp a = s) ∧
    (∀ d ip m, Event.ipAssigned d ip m ∈ (mainModel r env).1 →
      ip = resolveTunnelIp a) := by
  obtain ⟨ha, hne⟩ := tclapParse_ok r a hp
  have htip : a.tunnel_ip = r.tunnel_ip := by rw [ha]
  have hprim : a.primary = r.primary := by rw [ha]
  have hsec : a.secondary = r.secondary := by rw [ha]
  refine ⟨?_, ?_, ?_⟩
  · intro hnone
    refine ⟨fun hpr => ?_, fun hsr => ?_⟩
    · simp [resolveTunnelIp, htip, hnone, hprim, hpr]
    · have hpf : r.primary = false := by
        rcases Bool.eq_false_or_eq_true r.primary with h1 | h1
        · exact absurd (h1.trans hsr.symm) hne
        · exact h1
      simp [resolveTunnelIp, htip, hnone, hprim, hpf, hsec, hsr]
  · intro s hs
    simp [resolveTunnelIp, htip, hs]
  · intro d ip m hm
    have hmm : mainModel r env = mainAfterParse a env := by
      unfold mainModel
      rw [hp]
    rw [hmm] at hm
    exact (mainAfterParse_ipAssigned a env d ip m hm).2.1

/-- Witness for C6: the default secondary invocation. -/
theorem tunnel_ip_role_default_witness :
    (rawSecondary.tunnel_ip = none →
      (rawSecondary.primary = true →
        resolveTunnelIp argsSecondary = "192.168.10.1") ∧
      (rawSecondary.secondary = true →
        resolveTunnelIp argsSecondary = "192.168.10.2")) ∧
    (∀ s, rawSecondary.tunnel_ip = some s →
      resolveTunnelIp argsSecondary = s) ∧
    (∀ d ip m,
      Event.ipAssigned d ip m ∈ (mainModel rawSecondary okEnv).1 →
      ip = resolveTunnelIp argsSecondary) :=
  tunnel_ip_role_default rawSecondary okEnv argsSecondary rfl

/-- C7: the poll interval is consumed only by the primary role.  In any
non-primary invocation the bootstrap's outcome is independent of the
poll-interval option; a successful primary run hands `poll_interval_us` to
the engine constructor; and the secondary constructor has no poll-interval
parameter at all. -/
theorem poll_interval_primary_only :
    (∀ (r : RawArgs) (env : SysEnv) (v w : Option Nat), r.primary = false →
      mainModel { r with poll_interval_us := v } env =
      mainModel { r with poll_interval_us := w } env) ∧
    (∀ (a : Args) (env : SysEnv) (cfg : EngineConfig), a.primary = true →
      (mainAfterParse a env).2 = .ok cfg →
      cfg.poll_interval_us = some a.poll_interval_us) ∧
    (∀ ce fd pa sa ch,
      (mkSecondaryRadioInterface ce fd pa sa ch).poll_interval_us = none) := by
  refine ⟨?_, ?_, ?_⟩
  · intro r env v w hprim
    unfold mainModel
    dsimp only [tclapParse]
    by_cases hrs : r.primary = r.secondary
    · rw [if_pos hrs, if_pos hrs]
    · rw [if_neg hrs, if_neg hrs]
      exact mainAfterParse_poll
        { interface_name := r.interface_name.getD "nerf0"
          ce_pin := r.ce_pin.getD 22
          primary := r.primary
          secondary := r.secondary
          tunnel_ip := r.tunnel_ip
          tunnel_mask := r.tunnel_mask.getD "255.255.255.0"
          primary_addr := r.primary_addr.getD 0x90019001
          secondary_addr := r.secondary_addr.getD 0x90009000
          channel := r.channel.getD 1
          poll_interval_us := 0
          enable_tunnel_logs := r.enable_tunnel_logs }
        env (v.getD 100) (w.getD 100) hprim
  · intro a env cfg hprim h
    obtain ⟨fd, h1, e1⟩ := mainAfterParse_ok_steps a env cfg h
    rw [e1] at h
    obtain ⟨role, htr, hchar⟩ := roleDispatch_ok a fd cfg h
    rcases hchar with ⟨-, -, hcfg⟩ | ⟨-, hpf, -, hcfg⟩
    · rw [hcfg]
      rfl
    · rw [hprim] at hpf
      cases hpf
  · intro ce fd pa sa ch
    rfl

/-- Witness for C7: all three parts at concrete inputs; in particular a
secondary invocation gives identical runs for poll intervals 5 and 9. -/
theorem poll_interval_primary_only_witness :
    mainModel { rawSecondary with poll_interval_us := some 5 } okEnv =
      mainModel { rawSecondary with poll_interval_us := some 9 } okEnv ∧
    cfgPrimary.poll_interval_us = some argsPrimary.poll_interval_us ∧
    (mkSecondaryRadioInterface 22 3 1 2 7).poll_interval_us = none :=
  ⟨poll_interval_primary_only.1 rawSecondary okEnv (some 5) (some 9) rfl,
   poll_interval_primary_only.2.1 argsPrimary okEnv cfgPrimary rfl rfl,
   poll_interval_primary_only.2.2 22 3 1 2 7⟩

/-- C8: the values the run's engine is configured with are exactly the
parsed option values (with its tunnel descriptor from the tunnel setup),
the parsed values are exactly the invocation's values with TCLAP defaults,
and running the engine leaves the configuration unchanged (spec-modelled
`Run`). -/
theorem config_read_once_immutable (r : RawArgs) (env : SysEnv) (a : Args)
    (cfg : EngineConfig) (hp : tclapParse r = .ok a)
    (h : (mainModel r env).2 = .ok cfg) :
    cfg.ce_pin = a.ce_pin ∧
    cfg.primary_addr = a.primary_addr ∧
    cfg.secondary_addr = a.secondary_addr ∧
    cfg.channel = a.channel ∧
    cfg.tunnel_logs_enabled = a.enable_tunnel_logs ∧
    (cfg.role = .primary → cfg.poll_interval_us = some a.poll_interval_us) ∧
    a.primary_addr = r.primary_addr.getD 0x90019001 ∧
    a.secondary_addr = r.secondary_addr.getD 0x90009000 ∧
    a.channel = r.channel.getD 1 ∧
    a.poll_interval_us = r.poll_interval_us.getD 100 ∧
    a.ce_pin = r.ce_pin.getD 22 ∧
    a.interface_name = r.interface_name.getD "nerf0" ∧
    a.tunnel_mask = r.tunnel_mask.getD "255.255.255.0" ∧
    Run cfg = cfg := by
  obtain ⟨ha, -⟩ := tclapParse_ok r a hp
  have hmm : mainModel r env = mainAfterParse a env := by
    unfold mainModel
    rw [hp]
  rw [hmm] at h
  obtain ⟨fd, h1, e1⟩ := mainAfterParse_ok_steps a env cfg h
  rw [e1] at h
  obtain ⟨role, htr, hchar⟩ := roleDispatch_ok a fd cfg h
  refine ⟨?_, ?_, ?_, ?_, ?_, ?_,
    by rw [ha], by rw [ha], by rw [ha], by rw [ha], by rw [ha],
    by rw [ha], by rw [ha], rfl⟩
  · rcases hchar with ⟨-, -, hcfg⟩ | ⟨-, -, -, hcfg⟩ <;> rw [hcfg] <;> rfl
  · rcases hchar with ⟨-, -, hcfg⟩ | ⟨-, -, -, hcfg⟩ <;> rw [hcfg] <;> rfl
  · rcases hchar with ⟨-, -, hcfg⟩ | ⟨-, -, -, hcfg⟩ <;> rw [hcfg] <;> rfl
  · rcases hchar with ⟨-, -, hcfg⟩ | ⟨-, -, -, hcfg⟩ <;> rw [hcfg] <;> rfl
  · rcases hchar with ⟨-, -, hcfg⟩ | ⟨-, -, -, hcfg⟩ <;> rw [hcfg] <;> rfl
  · rcases hchar with ⟨-, -, hcfg⟩ | ⟨-, -, -, hcfg⟩
    · rw [hcfg]
      intro
      rfl
    · rw [hcfg]
      intro hr
      exact EngineRole.noConfusion hr

/-- Witness for C8: the default primary invocation against a fully
permissive environment. -/
theorem config_read_once_immutable_witness :
    cfgPrimary.ce_pin = argsPrimary.ce_pin ∧
    cfgPrimary.primary_addr = argsPrimary.primary_addr ∧
    cfgPrimary.secondary_addr = argsPrimary.secondary_addr ∧
    cfgPrimary.channel = argsPrimary.channel ∧
    cfgPrimary.tunnel_logs_enabled = argsPrimary.enable_tunnel_logs ∧
    (cfgPrimary.role = .primary →
      cfgPrimary.poll_interval_us = some argsPrimary.poll_interval_us) ∧
    argsPrimary.primary_addr = rawPrimary.primary_addr.getD 0x90019001 ∧
    argsPrimary.secondary_addr = rawPrimary.secondary_addr.getD 0x90009000 ∧
    argsPrimary.channel = rawPrimary.channel.getD 1 ∧
    argsPrimary.poll_interval_us = rawPrimary.poll_interval_us.getD 100 ∧
    argsPrimary.ce_pin = rawPrimary.ce_pin.getD 22 ∧
    argsPrimary.interface_name = rawPrimary.interface_name.getD "nerf0" ∧
    argsPrimary.tunnel_mask = rawPrimary.tunnel_mask.getD "255.255.255.0" ∧
    Run cfgPrimary = cfgPrimary :=
  config_read_once_immutable rawPrimary okEnv argsPrimary cfgPrimary rfl rfl

/-- C9: with the interface-name option omitted, the parsed name is the
default `nerf0` and every tunnel-setup event of the run (opening, bringing
up, assigning the address) names the device `nerf0`. -/
theorem interface_name_default (r : RawArgs) (env : SysEnv) (a : Args)
    (hp : tclapParse r = .ok a) (hn : r.interface_name = none) :
    a.interface_name = "nerf0" ∧
    ∀ e ∈ (mainModel r env).1, ∀ d,
      tunnelEventDevice e = some d → d = "nerf0" := by
  obtain ⟨ha, -⟩ := tclapParse_ok r a hp
  have hi : a.interface_name = "nerf0" := by
    rw [ha]
    show r.interface_name.getD "nerf0" = "nerf0"
    rw [hn]
    rfl
  refine ⟨hi, ?_⟩
  intro e he d hd
  have hmm : mainModel r env = mainAfterParse a env := by
    unfold mainModel
    rw [hp]
  rw [hmm] at he
  rw [← hi]
  exact mainAfterParse_device a env e he d hd

/-- Witness for C9: the default secondary invocation leaves the interface
name unset. -/
theorem interface_name_default_witness :
    argsSecondary.interface_name = "nerf0" ∧
    ∀ e ∈ (mainModel rawSecondary okEnv).1, ∀ d,
      tunnelEventDevice e = some d → d = "nerf0" :=
  interface_name_default rawSecondary okEnv argsSecondary rfl rfl

/-- C10: every successful run opens the tunnel, brings the interface up and
assigns IP and mask, in that order, before the engine is constructed and
its `Run` loop entered, and the engine receives the opened tunnel file
descriptor. -/
theorem tunnel_setup_precedes_run (r : RawArgs) (env : SysEnv) (a : Args)
    (cfg : EngineConfig) (hp : tclapParse r = .ok a)
    (h : (mainModel r env).2 = .ok cfg) :
    ∃ fd role, env.tun_open_fd = some fd ∧ cfg.tunnel_fd = fd ∧
      (mainModel r env).1 =
        [.openedTunnel a.interface_name fd,
         .interfaceUp a.interface_name,
         .ipAssigned a.interface_name (resolveTunnelIp a) a.tunnel_mask,
         .engineConstructed role cfg,
         .runEntered role] := by
  have hmm : mainModel r env = mainAfterParse a env := by
    unfold mainModel
    rw [hp]
  rw [hmm] at h ⊢
  obtain ⟨fd, h1, e1⟩ := mainAfterParse_ok_steps a env cfg h
  rw [e1] at h ⊢
  obtain ⟨role, htr, hchar⟩ := roleDispatch_ok a fd cfg h
  refine ⟨fd, role, (OpenTunnel_ok env a.interface_name fd h1).1, ?_, ?_⟩
  · rcases hchar with ⟨-, -, hcfg⟩ | ⟨-, -, -, hcfg⟩ <;> rw [hcfg] <;> rfl
  · show setupTrace a fd ++ (roleDispatch a fd).1 = _
    rw [htr]
    rfl

/-- Witness for C10: the default primary invocation against a fully
permissive environment, whose tunnel descriptor is 3. -/
theorem tunnel_setup_precedes_run_witness :
    ∃ fd role, okEnv.tun_open_fd = some fd ∧ cfgPrimary.tunnel_fd = fd ∧
      (mainModel rawPrimary okEnv).1 =
        [.openedTunnel argsPrimary.interface_name fd,
         .interfaceUp argsPrimary.interface_name,
         .ipAssigned argsPrimary.interface_name (resolveTunnelIp argsPrimary)
           argsPrimary.tunnel_mask,
         .engineConstructed role cfgPrimary,
         .runEntered role] :=
  tunnel_setup_precedes_run rawPrimary okEnv argsPrimary cfgPrimary rfl rfl

/-!
Round-trip of the (spec-modelled) fragmentation engine.
-/

lemma fragmentCount_pos (len : Nat) : 0 < fragmentCount len := by
  unfold fragmentCount framePayloadCapacity
  by_cases h : len = 0
  · simp [h]
  · rw [if_neg h]
    omega

lemma len_le_fragmentCount_mul (len : Nat) :
    len ≤ fragmentCount len * framePayloadCapacity := by
  unfold fragmentCount framePayloadCapacity
  by_cases h : len = 0
  · simp [h]
  · rw [if_neg h]
    omega

lemma partialSlots_length (P : List Nat) (cnt k : Nat) :
    (partialSlots P cnt k).length = cnt := by
  simp [partialSlots]

lemma partialSlots_zero (P : List Nat) (cnt : Nat) :
    partialSlots P cnt 0 = List.replicate cnt none := by
  apply List.ext_getElem
  · simp [partialSlots]
  · intro i h1 h2
    simp [partialSlots]

lemma partialSlots_set (P : List Nat) (cnt k : Nat) (hk : k < cnt) :
    (partialSlots P cnt k).set k (some (fragmentPayload P k)) =
      partialSlots P cnt (k + 1) := by
  apply List.ext_getElem
  · simp [partialSlots]
  · intro i h1 h2
    simp only [partialSlots, List.getElem_set, List.getElem_map,
      List.getElem_range]
    by_cases hik : k = i
    · subst hik
      simp
    · rw [if_neg hik]
      by_cases hik2 : i < k
      · rw [if_pos hik2, if_pos (by omega)]
      · rw [if_neg hik2, if_neg (by omega)]

lemma partialSlots_getD_none (P : List Nat) (cnt k : Nat) (hk : k < cnt) :
    (partialSlots P cnt k).getD k none = none := by
  unfold partialSlots
  rw [List.getD_eq_getElem?_getD, List.getElem?_map, List.getElem?_range hk]
  simp

lemma partialSlots_complete (P : List Nat) (cnt : Nat) :
    (partialSlots P cnt cnt).all Option.isSome = true := by
  rw [List.all_eq_true]
  intro x hx
  unfold partialSlots at hx
  simp at hx
  obtain ⟨i, hi, rfl⟩ := hx
  simp [hi]

lemma partialSlots_incomplete (P : List Nat) (cnt k : Nat) (hk : k < cnt) :
    (partialSlots P cnt k).all Option.isSome = false := by
  cases hall : (partialSlots P cnt k).all Option.isSome
  · rfl
  · exfalso
    rw [List.all_eq_true] at hall
    have hmem : (none : Option (List Nat)) ∈ partialSlots P cnt k := by
      unfold partialSlots
      rw [List.mem_map]
      exact ⟨k, List.mem_range.mpr hk, by rw [if_neg (Nat.lt_irrefl k)]⟩
    have := hall none hmem
    simp at this

lemma flatten_fragmentPayload (P : List Nat) (cnt : Nat) :
    ((List.range cnt).map fun i => fragmentPayload P i).flatten =
      P.take (cnt * framePayloadCapacity) := by
  induction cnt with
  | zero => simp
  | succ n ih =>
    rw [List.range_succ, List.map_append, List.flatten_append, ih]
    simp only [List.map_cons, List.map_nil, List.flatten_cons,
      List.flatten_nil, List.append_nil]
    unfold fragmentPayload
    rw [Nat.succ_mul, List.take_add]

lemma assembled_full (pid : Nat) (P : List Nat) (cnt : Nat)
    (hc : cnt = fragmentCount P.length) :
    (partialBuf pid P cnt cnt).assembled = P := by
  unfold ReassemblyBuffer.assembled partialBuf
  have hmap : (partialSlots P cnt cnt).map (fun s => s.getD []) =
      (List.range cnt).map fun i => fragmentPayload P i := by
    unfold partialSlots
    rw [List.map_map]
    apply List.map_congr_left
    intro i hi
    rw [List.mem_range] at hi
    simp [hi]
  rw [hmap, flatten_fragmentPayload]
  apply List.take_of_length_le
  rw [hc]
  exact len_le_fragmentCount_mul P.length


lemma ingest_frameAt_zero (pid : Nat) (P : List Nat) (cnt : Nat)
    (hc : cnt = fragmentCount P.length) (hk : 0 < cnt) :
    ingest_fragment [] (frameAt pid P 0) =
    (if 0 + 1 = cnt then [] else [partialBuf pid P cnt 1],
     if 0 + 1 = cnt then some P else none) := by
  have h0 : (0:Nat) < fragmentCount P.length := hc ▸ hk
  have hb : (newBuffer pid (fragmentCount P.length)).record 0
      (fragmentPayload P 0) = partialBuf pid P cnt 1 := by
    unfold newBuffer ReassemblyBuffer.record partialBuf
    rw [hc]
    rw [← partialSlots_zero, partialSlots_set P (fragmentCount P.length) 0 h0]
  unfold ingest_fragment
  dsimp only [frameAt]
  rw [List.find?_nil]
  rw [if_pos h0]
  rw [hb]
  dsimp only
  by_cases hone : 0 + 1 = cnt
  · have hc1 : cnt = 1 := by omega
    have hcmp : (partialBuf pid P cnt 1).complete = true := by
      unfold ReassemblyBuffer.complete partialBuf
      dsimp only
      rw [hc1]
      exact partialSlots_complete P 1
    have hasm : (partialBuf pid P cnt 1).assembled = P := by
      rw [hc1]
      exact assembled_full pid P 1 (by omega)
    rw [hcmp]
    rw [if_pos rfl, hasm, if_pos hone, if_pos hone]
  · have hcmp : (partialBuf pid P cnt 1).complete = false := by
      unfold ReassemblyBuffer.complete partialBuf
      dsimp only
      exact partialSlots_incomplete P cnt 1 (by omega)
    rw [hcmp]
    rw [if_neg Bool.false_ne_true, if_neg hone, if_neg hone,
      List.nil_append]


lemma ingest_frameAt_succ (pid : Nat) (P : List Nat) (cnt k : Nat)
    (hc : cnt = fragmentCount P.length) (hk : k < cnt) :
    ingest_fragment [partialBuf pid P cnt k] (frameAt pid P k) =
    (if k + 1 = cnt then [] else [partialBuf pid P cnt (k + 1)],
     if k + 1 = cnt then some P else none) := by
  have hfind : List.find? (fun b => b.packet_id == (pid : Nat))
      [partialBuf pid P cnt k] = some (partialBuf pid P cnt k) := by
    simp [partialBuf]
  have hrec : (partialBuf pid P cnt k).record k (fragmentPayload P k) =
      partialBuf pid P cnt (k + 1) := by
    unfold ReassemblyBuffer.record partialBuf
    dsimp only
    rw [partialSlots_set P cnt k hk]
  unfold ingest_fragment
  dsimp only [frameAt]
  rw [hfind]
  dsimp only
  rw [show (partialBuf pid P cnt k).fragment_count = cnt from rfl]
  rw [if_pos hk]
  rw [show (partialBuf pid P cnt k).slots = partialSlots P cnt k from rfl]
  rw [show (partialSlots P cnt k).getD k none = none from
    partialSlots_getD_none P cnt k hk]
  rw [show (none : Option (List Nat)).isSome = false from rfl]
  rw [if_neg Bool.false_ne_true]
  rw [hrec]
  by_cases hone : k + 1 = cnt
  · have hcmp : (partialBuf pid P cnt (k + 1)).complete = true := by
      unfold ReassemblyBuffer.complete partialBuf
      dsimp only
      rw [hone]
      exact partialSlots_complete P cnt
    have hasm : (partialBuf pid P cnt (k + 1)).assembled = P := by
      rw [hone]
      exact assembled_full pid P cnt hc
    rw [hcmp]
    rw [if_pos rfl, hasm, if_pos hone, if_pos hone]
    simp [partialBuf]
  · have hcmp : (partialBuf pid P cnt (k + 1)).complete = false := by
      unfold ReassemblyBuffer.complete partialBuf
      dsimp only
      exact partialSlots_incomplete P cnt (k + 1) (by omega)
    rw [hcmp]
    rw [if_neg Bool.false_ne_true, if_neg hone, if_neg hone]
    simp [partialBuf]

lemma ingest_all_append (st : List ReassemblyBuffer) (l₁ l₂ : List Frame) :
    ingest_all st (l₁ ++ l₂) =
      ((ingest_all (ingest_all st l₁).1 l₂).1,
       (ingest_all st l₁).2 ++ (ingest_all (ingest_all st l₁).1 l₂).2) := by
  induction l₁ generalizing st with
  | nil => simp [ingest_all]
  | cons f fs ih => simp [ingest_all, ih, List.append_assoc]

lemma ingest_step_general (pid : Nat) (P : List Nat) (cnt k : Nat)
    (hc : cnt = fragmentCount P.length) (hk : k < cnt) :
    ingest_fragment (if k = 0 then [] else [partialBuf pid P cnt k])
      (frameAt pid P k) =
    (if k + 1 = cnt then [] else [partialBuf pid P cnt (k + 1)],
     if k + 1 = cnt then some P else none) := by
  by_cases hk0 : k = 0
  · subst hk0
    rw [if_pos rfl]
    exact ingest_frameAt_zero pid P cnt hc hk
  · rw [if_neg hk0]
    exact ingest_frameAt_succ pid P cnt k hc hk

lemma ingest_all_from (pid : Nat) (P : List Nat) (cnt : Nat)
    (hc : cnt = fragmentCount P.length) :
    ∀ n k, cnt - k = n → k < cnt →
      ingest_all (if k = 0 then [] else [partialBuf pid P cnt k])
        ((List.range' k (cnt - k)).map (frameAt pid P)) = ([], [P]) := by
  intro n
  induction n with
  | zero =>
    intro k h hk
    omega
  | succ m ih =>
    intro k h hk
    rw [h, List.range'_succ, List.map_cons]
    show ((ingest_all (ingest_fragment _ _).1 _).1,
      (ingest_fragment _ _).2.toList ++ (ingest_all (ingest_fragment _ _).1 _).2) = _
    rw [ingest_step_general pid P cnt k hc hk]
    by_cases hend : k + 1 = cnt
    · have hm0 : m = 0 := by omega
      subst hm0
      rw [if_pos hend, if_pos hend]
      simp [ingest_all]
    · rw [if_neg hend, if_neg hend]
      have hrec := ih (k + 1) (by omega) (by omega)
      rw [if_neg (by omega : ¬k + 1 = 0)] at hrec
      rw [show cnt - (k + 1) = m by omega] at hrec
      rw [show (k + 1 : Nat) = k + 1 * 1 by omega] at hrec
      simp only [Nat.mul_one] at hrec
      rw [hrec]
      simp


lemma ingest_all_take_states (pid : Nat) (P : List Nat) (cnt : Nat)
    (hc : cnt = fragmentCount P.length) :
    ∀ k, k < cnt →
      ingest_all [] ((List.range' 0 k).map (frameAt pid P)) =
        (if k = 0 then [] else [partialBuf pid P cnt k], []) := by
  intro k
  induction k with
  | zero =>
    intro hk
    simp [ingest_all]
  | succ j ih =>
    intro hk
    rw [List.range'_concat]
    rw [show (0 : Nat) + 1 * j = j by omega]
    rw [List.map_append, List.map_cons, List.map_nil]
    rw [ingest_all_append]
    rw [ih (by omega)]
    simp only [ingest_all]
    rw [ingest_step_general pid P cnt j hc (by omega)]
    rw [if_neg (show ¬j + 1 = cnt by omega)]
    rw [if_neg (show ¬j + 1 = cnt by omega)]
    rw [if_neg (show ¬j + 1 = 0 by omega)]
    simp

/-- C2: for every packet of length at most the configured maximum,
encoding succeeds, and ingesting its frames in order yields the packet
exactly once: the completed-output list of the whole frame sequence is
exactly `[P]`, and every proper prefix of the sequence yields no completed
output at all. -/
theorem fragmentation_roundtrip (pid : Nat) (P : List Nat)
    (h : P.length ≤ maxPacketSize) :
    encode_packet pid P = .ok (encodedFrames pid P) ∧
    (ingest_all [] (encodedFrames pid P)).2 = [P] ∧
    ∀ k, k < (encodedFrames pid P).length →
      (ingest_all [] ((encodedFrames pid P).take k)).2 = [] := by
  have hcnt : 0 < fragmentCount P.length := fragmentCount_pos P.length
  have henc : encodedFrames pid P =
      (List.range (fragmentCount P.length)).map (frameAt pid P) := rfl
  refine ⟨?_, ?_, ?_⟩
  · unfold encode_packet
    rw [if_neg (by omega)]
  · rw [henc, List.range_eq_range']
    have hfull := ingest_all_from pid P (fragmentCount P.length) rfl
      (fragmentCount P.length) 0 (by omega) hcnt
    rw [if_pos rfl] at hfull
    rw [show fragmentCount P.length - 0 = fragmentCount P.length
      by omega] at hfull
    rw [hfull]
  · intro k hk
    rw [henc] at hk ⊢
    rw [List.length_map, List.length_range] at hk
    rw [← List.map_take, List.take_range]
    rw [Nat.min_eq_left (le_of_lt hk)]
    rw [List.range_eq_range']
    rw [ingest_all_take_states pid P (fragmentCount P.length) rfl k hk]

/-- Witness for C2: the three-byte packet `[0, 1, 2]` with packet id 7. -/
theorem fragmentation_roundtrip_witness :
    ([0, 1, 2] : List Nat).length ≤ maxPacketSize ∧
    (encode_packet 7 [0, 1, 2] = .ok (encodedFrames 7 [0, 1, 2]) ∧
     (ingest_all [] (encodedFrames 7 [0, 1, 2])).2 = [[0, 1, 2]] ∧
     ∀ k, k < (encodedFrames 7 [0, 1, 2]).length →
       (ingest_all [] ((encodedFrames 7 [0, 1, 2]).take k)).2 = []) :=
  ⟨by decide, fragmentation_roundtrip 7 [0, 1, 2] (by decide)⟩

end Nerfnet
